import Mathlib

/-!
Verification development for the daft-to-trello importer
(`src/daft_to_trello.py`).

The Python source is shallowly embedded:

* Python dictionaries with string keys become association lists
  (`aset` / `aget?` reproduce insertion-order update semantics);
* dynamically-typed Python values passed as optional arguments become
  `PyVal` (`None`, booleans, strings, integers), with Python truthiness
  as `pyTruthy`;
* exceptions become `Except PyError`;
* the network is a queue of pending `Response` values consumed in order,
  while every issued request is recorded in a trace (`RunState`), so
  that theorems can speak about which requests are sent and in what
  order;
* the lxml document tree becomes the inductive `Elem`, with the
  particular XPath / CSS queries used by the scraper implemented as
  tree traversals.
-/

namespace DaftToTrello

/-- A dynamically typed Python value, covering the shapes that flow
through the optional parameters of the client in the source. -/
inductive PyVal where
  | pyNone
  | pyBool (b : Bool)
  | pyStr (s : String)
  | pyInt (n : Int)
deriving DecidableEq, Repr

/-- Python truthiness for `PyVal` (`None`, `False`, the empty string and
`0` are falsy). -/
def pyTruthy : PyVal → Bool
  | .pyNone => false
  | .pyBool b => b
  | .pyStr s => !(s == "")
  | .pyInt n => !(n == 0)

/-- Association-list update with Python-dict semantics: an existing key
keeps its position and gets the new value, a new key is appended. -/
def aset {κ α : Type} [DecidableEq κ] : List (κ × α) → κ → α → List (κ × α)
  | [], k, v => [(k, v)]
  | (k', v') :: rest, k, v =>
      if k' = k then (k, v) :: rest else (k', v') :: aset rest k v

/-- Association-list lookup (Python `d[k]` / `k in d`). -/
def aget? {κ α : Type} [DecidableEq κ] : List (κ × α) → κ → Option α
  | [], _ => none
  | (k', v') :: rest, k => if k' = k then some v' else aget? rest k

/-- A Python dict with string keys and dynamically typed values, as used
for request parameters and bodies. -/
abbrev Dict := List (String × PyVal)

/-- A parsed JSON value, the result of `response.json()`. -/
inductive JVal where
  | null
  | jbool (b : Bool)
  | jnum (n : Int)
  | jstr (s : String)
  | jarr (xs : List JVal)
  | jobj (fields : List (String × JVal))

/-- JSON object indexing, `obj[key]` on a parsed response. -/
def JVal.getKey : JVal → String → Option JVal
  | .jobj fs, k => aget? fs k
  | _, _ => none

/-- JSON array indexing, `arr[i]` on a parsed response. -/
def JVal.getIdx : JVal → Nat → Option JVal
  | .jarr xs, i => xs.get? i
  | _, _ => none

/-- An HTTP response as seen by the client: its status code and the
result of parsing its body as JSON (`none` when the body is not valid
JSON, so that a parse attempt raises). -/
structure Response where
  status_code : Nat
  jsonParse : Option JVal

/-- The requests library's `response.ok`: true iff the status code is
below 400. -/
def Response.ok (r : Response) : Bool := r.status_code < 400

/-- The typed client error of the source (`TrelloClientException`),
carrying a message and the full response object. -/
structure TrelloClientException where
  message : String
  response : Response

/-- `TrelloClientException.from_response`: builds the exception with the
status code in the message and a reference to the response. -/
def TrelloClientException.from_response (r : Response) : TrelloClientException :=
  { message := "HTTP Error: " ++ toString r.status_code, response := r }

/-- The Python exceptions that can escape the embedded code. A
transport-level failure of the requests library is `transport`,
distinct from the typed `trello` error. -/
inductive PyError where
  | indexError
  | keyError (k : String)
  | typeError
  | valueError
  | assertionError
  | transport
  | trello (e : TrelloClientException)

/-- The credential pair held by `TrelloClient`. -/
structure Creds where
  api_key : String
  user_token : String
deriving DecidableEq, Repr

/-- The keyword arguments of `TrelloClient.request` that the source ever
passes on to `requests.request`: the query-string dict and the
form-encoded body dict, each possibly absent. -/
structure Kwargs where
  params : Option Dict
  data : Option Dict
deriving DecidableEq, Repr

/-- A fully prepared HTTP request: what `TrelloClient.request` hands to
`requests.request` after URL joining, channel selection and credential
injection. -/
structure PreparedRequest where
  method : String
  url : String
  params : Option Dict
  data : Option Dict
deriving DecidableEq, Repr

/-- One character of Python's `str.upper` on the ASCII range (HTTP
method names are ASCII). -/
def charUpper (c : Char) : Char :=
  if 97 ≤ c.toNat ∧ c.toNat ≤ 122 then Char.ofNat (c.toNat - 32) else c

/-- Python's `str.upper`, as applied to HTTP method names. -/
def pyUpper (s : String) : String := String.mk (s.data.map charUpper)

/-- Python's `str.startswith`. -/
def pyStartsWith (s p : String) : Bool := p.data.isPrefixOf s.data

/-- `TrelloClient.base_url`. -/
def base_url : String := "https://api.trello.com"

/-- `urlparse.urljoin` restricted to the shapes the source uses: an
absolute URL in `path` overrides the base entirely, a root-relative path
is appended to the origin. -/
def urljoin (base path : String) : String :=
  if pyStartsWith path "http://" || pyStartsWith path "https://" then path
  else if pyStartsWith path "/" then base ++ path
  else base ++ "/" ++ path

/-- Lines 114-125 of the source: join the URL, pick the parameter
channel by upper-cased method (query string for GET/HEAD/OPTIONS, body
otherwise), and inject `key` and `token` into the chosen channel,
overwriting caller entries. -/
def prepareRequest (c : Creds) (method path : String) (kw : Kwargs) : PreparedRequest :=
  let url := urljoin base_url path
  if pyUpper method == "GET" || pyUpper method == "HEAD" || pyUpper method == "OPTIONS" then
    let p := aset (aset (kw.params.getD []) "key" (.pyStr c.api_key)) "token" (.pyStr c.user_token)
    ⟨method, url, some p, kw.data⟩
  else
    let d := aset (aset (kw.data.getD []) "key" (.pyStr c.api_key)) "token" (.pyStr c.user_token)
    ⟨method, url, kw.params, some d⟩

/-- The network/trace state threaded through client calls: the queue of
responses the network will deliver, and the trace of requests issued so
far. An empty queue stands for a transport-level failure. -/
structure RunState where
  pending : List Response
  trace : List PreparedRequest

/-- `TrelloClient.request` (lines 114-132): prepare the request, send it
(recorded in the trace, consuming one pending response), raise the typed
error on a non-ok status, return `none` for status 204, and otherwise
parse the body as JSON. -/
def request (c : Creds) (method path : String) (kw : Kwargs) (st : RunState) :
    Except PyError (Option JVal) × RunState :=
  let pr := prepareRequest c method path kw
  match st.pending with
  | [] => (.error .transport, ⟨[], st.trace ++ [pr]⟩)
  | r :: rest =>
    let st' : RunState := ⟨rest, st.trace ++ [pr]⟩
    if r.ok then
      if r.status_code == 204 then (.ok none, st')
      else
        match r.jsonParse with
        | some v => (.ok (some v), st')
        | none => (.error .valueError, st')
    else (.error (.trello (.from_response r)), st')

/-- The `params` dict built by `TrelloClient.get_board` (lines 68-76):
`lists` and `cards` filters are added only when truthy. -/
def get_board_params (lists cards : PyVal) : Dict :=
  let p0 : Dict := []
  let p1 := if pyTruthy lists then aset p0 "lists" lists else p0
  if pyTruthy cards then aset p1 "cards" cards else p1

/-- `TrelloClient.get_board` (lines 68-76). -/
def get_board (c : Creds) (board_id : String) (lists cards : PyVal) (st : RunState) :
    Except PyError (Option JVal) × RunState :=
  request c "GET" ("/1/boards/" ++ board_id) ⟨some (get_board_params lists cards), none⟩ st

/-- The body dict built by `TrelloClient.create_card` (lines 78-88):
`idList` always, then `name`, `desc`, `pos`, `urlSource` each added only
when truthy. -/
def create_card_data (list_id : String) (name desc posn url_source : PyVal) : Dict :=
  let d0 : Dict := [("idList", .pyStr list_id)]
  let d1 := if pyTruthy name then aset d0 "name" name else d0
  let d2 := if pyTruthy desc then aset d1 "desc" desc else d1
  let d3 := if pyTruthy posn then aset d2 "pos" posn else d2
  if pyTruthy url_source then aset d3 "urlSource" url_source else d3

/-- The prepared request issued by `TrelloClient.create_card`. -/
def create_card_request (c : Creds) (list_id : String) (name desc posn url_source : PyVal) :
    PreparedRequest :=
  prepareRequest c "POST" "/1/cards" ⟨none, some (create_card_data list_id name desc posn url_source)⟩

/-- `TrelloClient.create_card` (lines 78-89): build the body and POST it
to `/1/cards`. The source's default position argument is `'bottom'`;
`create_card_default` below fixes that default. -/
def create_card (c : Creds) (list_id : String) (name desc posn url_source : PyVal)
    (st : RunState) : Except PyError (Option JVal) × RunState :=
  request c "POST" "/1/cards" ⟨none, some (create_card_data list_id name desc posn url_source)⟩ st

/-- `TrelloClient.create_card` with the position left at its declared
default `'bottom'` (the caller does not supply a position). -/
def create_card_default (c : Creds) (list_id : String) (name desc url_source : PyVal)
    (st : RunState) : Except PyError (Option JVal) × RunState :=
  create_card c list_id name desc (.pyStr "bottom") url_source st

/-- The body dict built by `TrelloClient.attach_to_card` (lines 91-101):
`file`, `url`, `name`, `mimeType` each added only when truthy. -/
def attach_to_card_data (file_data url name mimetype : PyVal) : Dict :=
  let d0 : Dict := []
  let d1 := if pyTruthy file_data then aset d0 "file" file_data else d0
  let d2 := if pyTruthy url then aset d1 "url" url else d1
  let d3 := if pyTruthy name then aset d2 "name" name else d2
  if pyTruthy mimetype then aset d3 "mimeType" mimetype else d3

/-- `TrelloClient.attach_to_card` (lines 91-102). -/
def attach_to_card (c : Creds) (card_id : String) (file_data url name mimetype : PyVal)
    (st : RunState) : Except PyError (Option JVal) × RunState :=
  request c "POST" ("/1/cards/" ++ card_id ++ "/attachments")
    ⟨none, some (attach_to_card_data file_data url name mimetype)⟩ st

/-- The body dict built by `TrelloClient.update_card` (lines 104-112):
`name` is added when not `None`; the cover attachment id is added when
not `None`, with the exact value `False` first replaced by the empty
string. -/
def update_card_data (name : Option String) (cover_attachment_id : PyVal) : Dict :=
  let d0 : Dict := []
  let d1 := match name with
    | some n => aset d0 "name" (.pyStr n)
    | none => d0
  match cover_attachment_id with
  | .pyNone => d1
  | .pyBool false => aset d1 "cover_attachment_id" (.pyStr "")
  | v => aset d1 "cover_attachment_id" v

/-- The prepared request issued by `TrelloClient.update_card`. -/
def update_card_request (c : Creds) (card_id : String) (name : Option String)
    (cover_attachment_id : PyVal) : PreparedRequest :=
  prepareRequest c "PUT" ("/1/cards/" ++ card_id)
    ⟨none, some (update_card_data name cover_attachment_id)⟩

/-- `TrelloClient.update_card` (lines 104-112): build the body and PUT
it to the card's endpoint. -/
def update_card (c : Creds) (card_id : String) (name : Option String)
    (cover_attachment_id : PyVal) (st : RunState) : Except PyError (Option JVal) × RunState :=
  request c "PUT" ("/1/cards/" ++ card_id)
    ⟨none, some (update_card_data name cover_attachment_id)⟩ st

/-- The body of a prepared request (empty when the request carries no
body dict). -/
def bodyOf (pr : PreparedRequest) : Dict := pr.data.getD []

/-- Standard UTF-8 encoding of a single code point, modelling Python's
`str.encode` for one character. -/
def utf8EncodeChar (c : Char) : List Nat :=
  let n := c.toNat
  if n < 0x80 then [n]
  else if n < 0x800 then
    [0xC0 ||| (n >>> 6), 0x80 ||| (n &&& 0x3F)]
  else if n < 0x10000 then
    [0xE0 ||| (n >>> 12), 0x80 ||| ((n >>> 6) &&& 0x3F), 0x80 ||| (n &&& 0x3F)]
  else
    [0xF0 ||| (n >>> 18), 0x80 ||| ((n >>> 12) &&& 0x3F),
     0x80 ||| ((n >>> 6) &&& 0x3F), 0x80 ||| (n &&& 0x3F)]

/-- `url.encode('utf-8')` (line 165): the shelve key under which a URL's
bytes are cached. -/
def utf8Key (s : String) : List Nat :=
  (s.data.map utf8EncodeChar).flatten

/-- The shelve backing store: UTF-8 URL keys mapped to raw body bytes. -/
abbrev Store := List (List Nat × List Nat)

/-- A raw HTTP response as seen by `CachedHttpClient` (only its ok flag
and body bytes matter there). -/
structure RawResponse where
  ok : Bool
  content : List Nat
deriving DecidableEq, Repr

/-- The outcome of a `CachedHttpClient.get`: the bytes returned, the
backing store afterwards, and how many network calls were made. -/
structure FetchOut where
  content : List Nat
  store : Store
  netCalls : Nat
deriving DecidableEq, Repr

/-- `CachedHttpClient.get` (lines 164-180): with a cache configured,
return a stored hit without touching the network; otherwise perform the
live GET, assert it is ok, store the bytes under the UTF-8 key when a
cache is configured, and return them. -/
def cachedGet (cacheFile : Bool) (net : String → RawResponse) (store : Store)
    (url : String) : Except PyError FetchOut :=
  let key := utf8Key url
  match (if cacheFile then aget? store key else none) with
  | some v => .ok ⟨v, store, 0⟩
  | none =>
    let response := net url
    if response.ok then
      let store' := if cacheFile then aset store key response.content else store
      .ok ⟨response.content, store', 1⟩
    else .error .assertionError

/-- An lxml HTML element: tag name, attribute dict, the text before the
first child (`.text`), the text following the element (`.tail`), and the
child elements in document order. -/
inductive Elem where
  | el (tag : String) (attrs : List (String × String)) (text : Option String)
      (tail : Option String) (children : List Elem)

/-- The element's tag name. -/
def Elem.tag : Elem → String
  | .el t _ _ _ _ => t

/-- The element's attribute dict. -/
def Elem.attrs : Elem → List (String × String)
  | .el _ a _ _ _ => a

/-- The element's `.text` (text before the first child). -/
def Elem.text : Elem → Option String
  | .el _ _ t _ _ => t

/-- The element's `.tail` (text after the closing tag). -/
def Elem.tail : Elem → Option String
  | .el _ _ _ t _ => t

/-- The element's child elements. -/
def Elem.children : Elem → List Elem
  | .el _ _ _ _ cs => cs

/-- Attribute lookup, `e.attrib[k]` (absence raises a KeyError in the
source). -/
def Elem.getAttr (e : Elem) (k : String) : Option String :=
  aget? e.attrs k

/-- Splits a character list into its maximal whitespace-free tokens;
the accumulator holds the current token reversed. -/
def wsTokensAux : List Char → List Char → List (List Char)
  | [], acc => if acc.isEmpty then [] else [acc.reverse]
  | c :: rest, acc =>
    if c.isWhitespace then
      if acc.isEmpty then wsTokensAux rest []
      else acc.reverse :: wsTokensAux rest []
    else wsTokensAux rest (c :: acc)

/-- Whether the element's whitespace-separated `class` attribute
contains the given class, as CSS class selectors match. -/
def Elem.hasClass (e : Elem) (c : String) : Bool :=
  match e.getAttr "class" with
  | some s => (wsTokensAux s.data []).contains c.data
  | none => false

/-- Whether the element's `id` attribute equals the given value. -/
def Elem.idIs (e : Elem) (i : String) : Bool :=
  e.getAttr "id" == some i

mutual

/-- lxml's `text_content()`: all text in the subtree with markup
stripped — the element's own text followed by each child's text content
and tail. -/
def Elem.textContent : Elem → String
  | .el _ _ t _ cs => t.getD "" ++ textContentList cs

/-- Text content of a sequence of sibling elements, each followed by its
tail text. -/
def textContentList : List Elem → String
  | [] => ""
  | c :: rest => Elem.textContent c ++ (Elem.tail c).getD "" ++ textContentList rest

end

mutual

/-- All descendant-or-self elements satisfying the predicate, in
document order — the shape of an XPath `//x[...]` query or a
single-part CSS selector evaluated from an element. -/
def Elem.collect (p : Elem → Bool) : Elem → List Elem
  | .el t a tx tl cs =>
      (if p (.el t a tx tl cs) then [.el t a tx tl cs] else []) ++ collectList p cs

/-- `Elem.collect` over a sequence of sibling elements. -/
def collectList (p : Elem → Bool) : List Elem → List Elem
  | [] => []
  | c :: rest => Elem.collect p c ++ collectList p rest

end

mutual

/-- Elements satisfying `pB` that have a proper ancestor (within the
traversed subtree) satisfying `pA`; `anc` records whether such an
ancestor has already been seen. Document order, no duplicates — the
shape of a two-part descendant CSS selector `A B`. -/
def Elem.collectUnder (pA pB : Elem → Bool) (anc : Bool) : Elem → List Elem
  | .el t a tx tl cs =>
      let e : Elem := .el t a tx tl cs
      (if anc && pB e then [e] else []) ++
        collectUnderList pA pB (anc || pA e) cs

/-- `Elem.collectUnder` over a sequence of sibling elements. -/
def collectUnderList (pA pB : Elem → Bool) (anc : Bool) : List Elem → List Elem
  | [] => []
  | c :: rest => Elem.collectUnder pA pB anc c ++ collectUnderList pA pB anc rest

end

/-- A two-part descendant CSS selector `A B` evaluated from `root`:
matches of `B` that are proper descendants of a match of `A` within
`root`'s subtree (`root` itself may be the `A` match). -/
def cssDesc (pA pB : Elem → Bool) (root : Elem) : List Elem :=
  Elem.collectUnder pA pB false root

/-- The XPath query `//div[@id="content"]` of line 320. -/
def divContentQ (html : Elem) : List Elem :=
  html.collect (fun e => e.tag == "div" && e.idIs "content")

/-- The CSS query `.smi-info h1` of line 322, evaluated from the content
container. -/
def titleQ (content_tag : Elem) : List Elem :=
  cssDesc (fun e => e.hasClass "smi-info") (fun e => e.tag == "h1") content_tag

/-- The CSS query `#smi-gallery-img-main img` of line 325, evaluated
from the document root. -/
def imageQ (html : Elem) : List Elem :=
  cssDesc (fun e => e.idIs "smi-gallery-img-main") (fun e => e.tag == "img") html

/-- The CSS query `#smi-price-string` of line 331. -/
def priceQ (html : Elem) : List Elem :=
  html.collect (fun e => e.idIs "smi-price-string")

/-- The CSS query `#smi-summary-items .header_text` of line 334. -/
def headerQ (html : Elem) : List Elem :=
  cssDesc (fun e => e.idIs "smi-summary-items") (fun e => e.hasClass "header_text") html

/-- The CSS query `#smi-tab-overview .description_block` of line 342. -/
def descQ (html : Elem) : List Elem :=
  cssDesc (fun e => e.idIs "smi-tab-overview") (fun e => e.hasClass "description_block") html

/-- The listing record: a Python dict from field names to values, where
a value may be Python `None` (an element with no text). -/
abbrev Info := List (String × Option String)

/-- `scrape_daft_page` (lines 313-345), taking the already fetched and
parsed document as input (the fetch itself is `cachedGet`): build the
record `url`, `title`, `image` (protocol-relative sources prefixed with
`https:`), `price`, `beds` and `baths` (second and third summary header
texts), and `description` (text contents of the description blocks
joined with one blank line). Indexing an empty query result raises
IndexError; a missing `src` attribute raises KeyError. -/
def scrape_daft_page (url : String) (html : Elem) : Except PyError Info :=
  let info0 : Info := [("url", some url)]
  match divContentQ html with
  | [] => .error .indexError
  | content_tag :: _ =>
    match titleQ content_tag with
    | [] => .error .indexError
    | title_tag :: _ =>
      let info1 := aset info0 "title" title_tag.text
      match imageQ html with
      | [] => .error .indexError
      | image_tag :: _ =>
        match image_tag.getAttr "src" with
        | none => .error (.keyError "src")
        | some image_src =>
          let image_src :=
            if pyStartsWith image_src "//" then "https:" ++ image_src else image_src
          let info2 := aset info1 "image" (some image_src)
          match priceQ html with
          | [] => .error .indexError
          | price_tag :: _ =>
            let info3 := aset info2 "price" price_tag.text
            let hdrtext := (headerQ html).map Elem.text
            match hdrtext.get? 1 with
            | none => .error .indexError
            | some beds =>
              match hdrtext.get? 2 with
              | none => .error .indexError
              | some baths =>
                let info4 := aset (aset info3 "beds" beds) "baths" baths
                let d := String.intercalate "\n\n" ((descQ html).map Elem.textContent)
                .ok (aset info4 "description" (some d))

/-- Python string conversion of a field value inside a format string
(`None` renders as the text `None`). -/
def pyFieldStr : Option String → String
  | some s => s
  | none => "None"

/-- `data[k]` on the listing record: the value, or a KeyError. -/
def fieldVal (data : Info) (k : String) : Except PyError (Option String) :=
  match aget? data k with
  | some v => .ok v
  | none => .error (.keyError k)

/-- A listing-record value passed on as an argument to a client method
(a Python `None` stays `None`). -/
def pyOfField : Option String → PyVal
  | some s => .pyStr s
  | none => .pyNone

/-- The expression `x['id']` on a JSON response used as a string: a
`None` response or a non-object raises TypeError, a missing key raises
KeyError; modelled for string-valued ids as delivered by the API. -/
def jsonId (x : Option JVal) : Except PyError String :=
  match x with
  | none => .error .typeError
  | some j =>
    match j.getKey "id" with
    | some (.jstr s) => .ok s
    | some _ => .error .typeError
    | none => .error (.keyError "id")

/-- The expression `board['lists'][0]['id']` of line 296. -/
def firstListId (board : Option JVal) : Except PyError String :=
  match board with
  | none => .error .typeError
  | some b =>
    match b.getKey "lists" with
    | none => .error (.keyError "lists")
    | some l =>
      match l.getIdx 0 with
      | none => .error .indexError
      | some first =>
        match first.getKey "id" with
        | some (.jstr s) => .ok s
        | some _ => .error .typeError
        | none => .error (.keyError "id")

/-- The card title format string of lines 298-299,
`'{0[title]} - {0[beds]} / {0[baths]} - {0[price]}'.format(data)`. -/
def card_title_of (data : Info) : Except PyError String :=
  match aget? data "title" with
  | none => .error (.keyError "title")
  | some t =>
    match aget? data "beds" with
    | none => .error (.keyError "beds")
    | some bd =>
      match aget? data "baths" with
      | none => .error (.keyError "baths")
      | some ba =>
        match aget? data "price" with
        | none => .error (.keyError "price")
        | some p =>
          .ok (pyFieldStr t ++ " - " ++ pyFieldStr bd ++ " / " ++ pyFieldStr ba
                ++ " - " ++ pyFieldStr p)

/-- The `import_ad` command (lines 286-310), with the configuration
lookup replaced by the credentials and board id it yields and the fetch
replaced by the parsed document: scrape the page, fetch the board with
`lists='all', cards='all'`, take the first list's id, create the card
with the formatted title and the description, attach the image URL, set
that attachment as the card's cover, and attach the source URL. -/
def import_ad (c : Creds) (board_id : String) (url : String) (html : Elem)
    (st : RunState) : Except PyError Unit × RunState :=
  match scrape_daft_page url html with
  | .error e => (.error e, st)
  | .ok data =>
    match get_board c board_id (.pyStr "all") (.pyStr "all") st with
    | (.error e, st1) => (.error e, st1)
    | (.ok board, st1) =>
      match firstListId board with
      | .error e => (.error e, st1)
      | .ok target_list_id =>
        match card_title_of data with
        | .error e => (.error e, st1)
        | .ok card_title =>
          match fieldVal data "description" with
          | .error e => (.error e, st1)
          | .ok descv =>
            match create_card_default c target_list_id (.pyStr card_title)
                (pyOfField descv) .pyNone st1 with
            | (.error e, st2) => (.error e, st2)
            | (.ok card, st2) =>
              match jsonId card with
              | .error e => (.error e, st2)
              | .ok card_id =>
                match fieldVal data "image" with
                | .error e => (.error e, st2)
                | .ok imgv =>
                  match attach_to_card c card_id .pyNone (pyOfField imgv)
                      .pyNone .pyNone st2 with
                  | (.error e, st3) => (.error e, st3)
                  | (.ok img_att, st3) =>
                    match jsonId img_att with
                    | .error e => (.error e, st3)
                    | .ok att_id =>
                      match update_card c card_id none (.pyStr att_id) st3 with
                      | (.error e, st4) => (.error e, st4)
                      | (.ok _, st4) =>
                        match fieldVal data "url" with
                        | .error e => (.error e, st4)
                        | .ok urlv =>
                          match attach_to_card c card_id .pyNone (pyOfField urlv)
                              .pyNone .pyNone st4 with
                          | (.error e, st5) => (.error e, st5)
                          | (.ok _, st5) => (.ok (), st5)

/-- An ok response (status 200) with the given parsed JSON body. -/
def okResp (j : JVal) : Response := ⟨200, some j⟩

/-- A concrete listing page of the shape the scraper expects, used as a
test input: a content container with the title heading, a gallery
image, a price node, a property-type header followed by the beds and
baths headers, and a list of description blocks. -/
def mkListingDoc (title beds baths price src : String) (descs : List String) : Elem :=
  .el "html" [] none none [
    .el "div" [("id", "content")] none none [
      .el "div" [("class", "smi-info")] none none [
        .el "h1" [] (some title) none []]],
    .el "div" [("id", "smi-gallery-img-main")] none none [
      .el "img" [("src", src)] none none []],
    .el "span" [("id", "smi-price-string")] (some price) none [],
    .el "div" [("id", "smi-summary-items")] none none [
      .el "span" [("class", "header_text")] (some "House") none [],
      .el "span" [("class", "header_text")] (some beds) none [],
      .el "span" [("class", "header_text")] (some baths) none []],
    .el "div" [("id", "smi-tab-overview")] none none
      (descs.map (fun d => .el "p" [("class", "description_block")] (some d) none []))]

/-! Helper lemmas about the dict operations. -/

theorem aget?_aset_self {κ α : Type} [DecidableEq κ] (d : List (κ × α)) (k : κ) (v : α) :
    aget? (aset d k v) k = some v := by
  induction d with
  | nil => simp [aset, aget?]
  | cons p rest ih =>
    obtain ⟨k', v'⟩ := p
    by_cases h : k' = k <;> simp [aset, aget?, h, ih]

theorem aget?_aset_ne {κ α : Type} [DecidableEq κ] (d : List (κ × α)) (k k' : κ) (v : α)
    (h : k' ≠ k) : aget? (aset d k v) k' = aget? d k' := by
  induction d with
  | nil => simp [aset, aget?, Ne.symm h]
  | cons p rest ih =>
    obtain ⟨k₀, v₀⟩ := p
    by_cases h₀ : k₀ = k
    · subst h₀
      simp [aset, aget?, Ne.symm h, h]
    · by_cases h₁ : k₀ = k' <;> simp [aset, aget?, h, h₀, h₁, ih]

theorem aget?_asetIf_ne {κ α : Type} [DecidableEq κ] (b : Bool) (d : List (κ × α))
    (k k' : κ) (v : α) (h : k' ≠ k) :
    aget? (if b then aset d k v else d) k' = aget? d k' := by
  cases b <;> simp [aget?_aset_ne _ _ _ _ h]

theorem aget?_asetIf_self {κ α : Type} [DecidableEq κ] (b : Bool) (d : List (κ × α))
    (k : κ) (v : α) (hb : b = true) :
    aget? (if b then aset d k v else d) k = some v := by
  subst hb
  simp [aget?_aset_self]

/-- Looking up any key other than `key` and `token` in a dict after
credential injection sees the original dict. -/
theorem aget?_cred_inject (c : Creds) (d : Dict) (k : String)
    (hk : k ≠ "key") (ht : k ≠ "token") :
    aget? (aset (aset d "key" (.pyStr c.api_key)) "token" (.pyStr c.user_token)) k
      = aget? d k := by
  rw [aget?_aset_ne _ _ _ _ ht, aget?_aset_ne _ _ _ _ hk]

/-- The body of a POST prepared from an explicit data dict is that dict
with the credentials injected. -/
theorem bodyOf_post (c : Creds) (path : String) (d : Dict) :
    bodyOf (prepareRequest c "POST" path ⟨none, some d⟩)
      = aset (aset d "key" (.pyStr c.api_key)) "token" (.pyStr c.user_token) := rfl

/-! Claim theorems. -/

/-- C1: for every HTTP method, `request` places the caller-supplied
parameters together with the injected credentials (under `key` and
`token`) in the URL query string when the upper-cased method is one of
GET, HEAD, OPTIONS, and in the form-encoded body for every other
method; the credentials unconditionally overwrite caller entries under
those names in the chosen channel, while entries under other names are
preserved. -/
theorem c1_channel_selection_and_credential_injection (c : Creds) (method path : String)
    (kw : Kwargs) :
    ((pyUpper method = "GET" ∨ pyUpper method = "HEAD" ∨ pyUpper method = "OPTIONS") →
      (prepareRequest c method path kw).params =
        some (aset (aset (kw.params.getD []) "key" (.pyStr c.api_key))
          "token" (.pyStr c.user_token)) ∧
      (prepareRequest c method path kw).data = kw.data ∧
      aget? ((prepareRequest c method path kw).params.getD []) "key"
        = some (.pyStr c.api_key) ∧
      aget? ((prepareRequest c method path kw).params.getD []) "token"
        = some (.pyStr c.user_token) ∧
      (∀ k, k ≠ "key" → k ≠ "token" →
        aget? ((prepareRequest c method path kw).params.getD []) k
          = aget? (kw.params.getD []) k)) ∧
    (¬(pyUpper method = "GET" ∨ pyUpper method = "HEAD" ∨ pyUpper method = "OPTIONS") →
      (prepareRequest c method path kw).data =
        some (aset (aset (kw.data.getD []) "key" (.pyStr c.api_key))
          "token" (.pyStr c.user_token)) ∧
      (prepareRequest c method path kw).params = kw.params ∧
      aget? ((prepareRequest c method path kw).data.getD []) "key"
        = some (.pyStr c.api_key) ∧
      aget? ((prepareRequest c method path kw).data.getD []) "token"
        = some (.pyStr c.user_token) ∧
      (∀ k, k ≠ "key" → k ≠ "token" →
        aget? ((prepareRequest c method path kw).data.getD []) k
          = aget? (kw.data.getD []) k)) := by
  by_cases hm : pyUpper method = "GET" ∨ pyUpper method = "HEAD" ∨ pyUpper method = "OPTIONS"
  · have hb : (pyUpper method == "GET" || pyUpper method == "HEAD"
        || pyUpper method == "OPTIONS") = true := by
      rcases hm with h | h | h <;> simp [h]
    refine ⟨fun _ => ?_, fun hn => absurd hm hn⟩
    refine ⟨by simp [prepareRequest, hb], by simp [prepareRequest, hb], ?_, ?_, ?_⟩
    · simp only [prepareRequest, hb, if_true, Option.getD_some]
      rw [aget?_aset_ne _ "token" "key" _ (by decide), aget?_aset_self]
    · simp only [prepareRequest, hb, if_true, Option.getD_some]
      rw [aget?_aset_self]
    · intro k hk ht
      simp only [prepareRequest, hb, if_true, Option.getD_some]
      rw [aget?_aset_ne _ "token" k _ ht, aget?_aset_ne _ "key" k _ hk]
  · have hb : (pyUpper method == "GET" || pyUpper method == "HEAD"
        || pyUpper method == "OPTIONS") = false := by
      simp only [Bool.or_eq_false_iff, beq_eq_false_iff_ne]
      push_neg at hm
      exact ⟨⟨hm.1, hm.2.1⟩, hm.2.2⟩
    refine ⟨fun h => absurd h hm, fun _ => ?_⟩
    refine ⟨by simp [prepareRequest, hb], by simp [prepareRequest, hb], ?_, ?_, ?_⟩
    · simp only [prepareRequest, hb, Bool.false_eq_true, if_false, Option.getD_some]
      rw [aget?_aset_ne _ "token" "key" _ (by decide), aget?_aset_self]
    · simp only [prepareRequest, hb, Bool.false_eq_true, if_false, Option.getD_some]
      rw [aget?_aset_self]
    · intro k hk ht
      simp only [prepareRequest, hb, Bool.false_eq_true, if_false, Option.getD_some]
      rw [aget?_aset_ne _ "token" k _ ht, aget?_aset_ne _ "key" k _ hk]

/-- Witness for C1: a lower-case `get` request sends credentials in the
query string, overwriting a caller-supplied `key`, and a `post` request
sends them in the body. -/
theorem c1_channel_selection_and_credential_injection_witness :
    ((pyUpper "get" = "GET" ∨ pyUpper "get" = "HEAD" ∨ pyUpper "get" = "OPTIONS") ∧
      aget? ((prepareRequest ⟨"K", "T"⟩ "get" "/x"
        ⟨some [("key", .pyStr "evil"), ("a", .pyStr "1")], none⟩).params.getD []) "key"
        = some (.pyStr "K")) ∧
    (¬(pyUpper "post" = "GET" ∨ pyUpper "post" = "HEAD" ∨ pyUpper "post" = "OPTIONS") ∧
      aget? ((prepareRequest ⟨"K", "T"⟩ "post" "/x" ⟨none, none⟩).data.getD []) "token"
        = some (.pyStr "T")) :=
  ⟨⟨by decide,
    ((c1_channel_selection_and_credential_injection ⟨"K", "T"⟩ "get" "/x"
      ⟨some [("key", .pyStr "evil"), ("a", .pyStr "1")], none⟩).1 (by decide)).2.2.1⟩,
   ⟨by decide,
    ((c1_channel_selection_and_credential_injection ⟨"K", "T"⟩ "post" "/x"
      ⟨none, none⟩).2 (by decide)).2.2.2.1⟩⟩

/-- C4: a response with a non-ok status makes `request` raise the typed
`TrelloClientException` carrying that exact status code and the full
response, returning nothing; a transport-level failure propagates as a
different error than the typed one. -/
theorem c4_http_error_normalization (c : Creds) (method path : String) (kw : Kwargs)
    (r : Response) (rest : List Response) (tr : List PreparedRequest)
    (h : r.ok = false) :
    (request c method path kw ⟨r :: rest, tr⟩).1
      = .error (.trello (TrelloClientException.from_response r)) ∧
    (TrelloClientException.from_response r).response = r ∧
    (TrelloClientException.from_response r).message
      = "HTTP Error: " ++ toString r.status_code ∧
    (request c method path kw ⟨[], tr⟩).1 = .error .transport ∧
    (∀ e, PyError.transport ≠ .trello e) := by
  refine ⟨?_, rfl, rfl, rfl, fun e h' => by cases h'⟩
  simp [request, h]

/-- Witness for C4: a 404 response raises the typed error. -/
theorem c4_http_error_normalization_witness :
    Response.ok ⟨404, none⟩ = false ∧
    (request ⟨"K", "T"⟩ "GET" "/x" ⟨none, none⟩ ⟨[⟨404, none⟩], []⟩).1
      = .error (.trello (TrelloClientException.from_response ⟨404, none⟩)) :=
  ⟨by decide,
   (c4_http_error_normalization ⟨"K", "T"⟩ "GET" "/x" ⟨none, none⟩ ⟨404, none⟩ [] []
     (by decide)).1⟩

/-- C5: a 204 response makes `request` return the explicit empty result
without attempting to parse the body (even an unparseable body raises
nothing), and any other ok response has its parsed JSON body
returned. -/
theorem c5_no_content_and_json (c : Creds) (method path : String) (kw : Kwargs)
    (rest : List Response) (tr : List PreparedRequest) :
    (∀ body, (request c method path kw ⟨⟨204, body⟩ :: rest, tr⟩).1 = .ok none) ∧
    (∀ r v, r.ok = true → r.status_code ≠ 204 → r.jsonParse = some v →
      (request c method path kw ⟨r :: rest, tr⟩).1 = .ok (some v)) := by
  constructor
  · intro body
    simp [request, Response.ok]
  · intro r v hok h204 hjson
    simp [request, hok, h204, hjson]

/-- Witness for C5: a 204 response with an unparseable body yields the
empty result, and a 200 response yields its JSON body. -/
theorem c5_no_content_and_json_witness :
    (request ⟨"K", "T"⟩ "GET" "/x" ⟨none, none⟩ ⟨[⟨204, none⟩], []⟩).1 = .ok none ∧
    (request ⟨"K", "T"⟩ "GET" "/x" ⟨none, none⟩ ⟨[⟨200, some .null⟩], []⟩).1
      = .ok (some .null) :=
  ⟨(c5_no_content_and_json ⟨"K", "T"⟩ "GET" "/x" ⟨none, none⟩ [] []).1 none,
   (c5_no_content_and_json ⟨"K", "T"⟩ "GET" "/x" ⟨none, none⟩ [] []).2 ⟨200, some .null⟩
     .null (by decide) (by decide) rfl⟩

/-- Counterexample to C6 as stated: `0` is a falsy-but-present cover
value, yet `update_card` sends it unchanged rather than as the empty
"no cover" sentinel, because the source tests `cover_attachment_id is
False` rather than falsiness. -/
theorem c6_falsy_cover_counterexample :
    pyTruthy (.pyInt 0) = false ∧
    aget? (update_card_data none (.pyInt 0)) "cover_attachment_id" = some (.pyInt 0) ∧
    some (PyVal.pyInt 0) ≠ some (PyVal.pyStr "") := by
  refine ⟨rfl, rfl, ?_⟩
  decide

/-- C6 amended: `update_card` treats the cover attachment as a
tri-state input — `None` omits the field from the request entirely, the
exact value `False` sends the explicit empty "no cover" sentinel, and
any other value (the empty string coinciding with that sentinel, a
non-empty identifier sent verbatim) is sent unchanged; in particular a
falsy-but-present value other than `False` or `''` is NOT converted to
the sentinel. -/
theorem c6_cover_tristate (c : Creds) (card_id : String) (name : Option String)
    (cover : PyVal) :
    (cover = .pyNone →
      aget? (bodyOf (update_card_request c card_id name cover)) "cover_attachment_id"
        = none) ∧
    (cover = .pyBool false →
      aget? (bodyOf (update_card_request c card_id name cover)) "cover_attachment_id"
        = some (.pyStr "")) ∧
    (cover ≠ .pyNone → cover ≠ .pyBool false →
      aget? (bodyOf (update_card_request c card_id name cover)) "cover_attachment_id"
        = some cover) ∧
    (update_card c card_id name cover ⟨[], []⟩).2.trace
      = [update_card_request c card_id name cover] := by
  have hbody : bodyOf (update_card_request c card_id name cover)
      = aset (aset (update_card_data name cover) "key" (.pyStr c.api_key))
          "token" (.pyStr c.user_token) := by
    simp [bodyOf, update_card_request, prepareRequest, pyUpper, charUpper]
  have hcover : aget? (aset (aset (update_card_data name cover) "key"
        (.pyStr c.api_key)) "token" (.pyStr c.user_token)) "cover_attachment_id"
      = aget? (update_card_data name cover) "cover_attachment_id" := by
    rw [aget?_aset_ne _ "token" _ _ (by decide), aget?_aset_ne _ "key" _ _ (by decide)]
  refine ⟨?_, ?_, ?_, ?_⟩
  · rintro rfl
    rw [hbody, hcover]
    cases name <;> simp [update_card_data, aget?, aset]
  · rintro rfl
    rw [hbody, hcover]
    cases name <;> simp [update_card_data, aget?, aset, aget?_aset_self]
  · intro hn hf
    rw [hbody, hcover]
    have : aget? (update_card_data name cover) "cover_attachment_id" = some cover := by
      cases cover with
      | pyNone => exact absurd rfl hn
      | pyBool b =>
        cases b with
        | false => exact absurd rfl hf
        | true => cases name <;> simp [update_card_data, aget?, aset, aget?_aset_self]
      | pyStr s => cases name <;> simp [update_card_data, aget?, aset, aget?_aset_self]
      | pyInt n => cases name <;> simp [update_card_data, aget?, aset, aget?_aset_self]
    exact this
  · simp [update_card, update_card_request, request]

/-- Witness for C6 amended: `None` omits the field, `False` sends the
sentinel, a concrete identifier is sent verbatim. -/
theorem c6_cover_tristate_witness :
    (aget? (bodyOf (update_card_request ⟨"K", "T"⟩ "c1" none .pyNone))
        "cover_attachment_id" = none) ∧
    (aget? (bodyOf (update_card_request ⟨"K", "T"⟩ "c1" none (.pyBool false)))
        "cover_attachment_id" = some (.pyStr "")) ∧
    (aget? (bodyOf (update_card_request ⟨"K", "T"⟩ "c1" none (.pyStr "att9")))
        "cover_attachment_id" = some (.pyStr "att9")) :=
  ⟨(c6_cover_tristate ⟨"K", "T"⟩ "c1" none .pyNone).1 rfl,
   (c6_cover_tristate ⟨"K", "T"⟩ "c1" none (.pyBool false)).2.1 rfl,
   (c6_cover_tristate ⟨"K", "T"⟩ "c1" none (.pyStr "att9")).2.2.1
     (by decide) (by decide)⟩

/-- C10: every `create_card` request body contains `idList`; with the
default position the body carries `pos = 'bottom'` while a falsy
position omits the field; `name`, `desc` and `urlSource` are included
exactly when truthy, so an empty string for `name` or `desc` produces
the same request as omitting the argument. -/
theorem c10_create_card_body (c : Creds) (list_id : String)
    (name desc posn url_source : PyVal) :
    aget? (bodyOf (create_card_request c list_id name desc posn url_source)) "idList"
      = some (.pyStr list_id) ∧
    aget? (bodyOf (create_card_request c list_id name desc (.pyStr "bottom") url_source))
      "pos" = some (.pyStr "bottom") ∧
    (pyTruthy posn = false →
      aget? (bodyOf (create_card_request c list_id name desc posn url_source)) "pos"
        = none) ∧
    (pyTruthy name = true →
      aget? (bodyOf (create_card_request c list_id name desc posn url_source)) "name"
        = some name) ∧
    (pyTruthy name = false →
      aget? (bodyOf (create_card_request c list_id name desc posn url_source)) "name"
        = none) ∧
    (pyTruthy desc = true →
      aget? (bodyOf (create_card_request c list_id name desc posn url_source)) "desc"
        = some desc) ∧
    (pyTruthy desc = false →
      aget? (bodyOf (create_card_request c list_id name desc posn url_source)) "desc"
        = none) ∧
    (pyTruthy url_source = true →
      aget? (bodyOf (create_card_request c list_id name desc posn url_source)) "urlSource"
        = some url_source) ∧
    (pyTruthy url_source = false →
      aget? (bodyOf (create_card_request c list_id name desc posn url_source)) "urlSource"
        = none) ∧
    create_card_request c list_id (.pyStr "") desc posn url_source
      = create_card_request c list_id .pyNone desc posn url_source ∧
    create_card_request c list_id name (.pyStr "") posn url_source
      = create_card_request c list_id name .pyNone posn url_source ∧
    (∀ st, create_card_default c list_id name desc url_source st
      = create_card c list_id name desc (.pyStr "bottom") url_source st) ∧
    (create_card c list_id name desc posn url_source ⟨[], []⟩).2.trace
      = [create_card_request c list_id name desc posn url_source] := by
  have hbody : ∀ n d p u, bodyOf (create_card_request c list_id n d p u)
      = aset (aset (create_card_data list_id n d p u) "key" (.pyStr c.api_key))
          "token" (.pyStr c.user_token) := fun n d p u => bodyOf_post c "/1/cards" _
  refine ⟨?_, ?_, ?_, ?_, ?_, ?_, ?_, ?_, ?_, ?_, ?_, fun st => rfl, ?_⟩
  · rw [hbody, aget?_cred_inject c _ _ (by decide) (by decide)]
    simp only [create_card_data]
    rw [aget?_asetIf_ne _ _ "urlSource" "idList" _ (by decide),
        aget?_asetIf_ne _ _ "pos" "idList" _ (by decide),
        aget?_asetIf_ne _ _ "desc" "idList" _ (by decide),
        aget?_asetIf_ne _ _ "name" "idList" _ (by decide)]
    rfl
  · rw [hbody, aget?_cred_inject c _ _ (by decide) (by decide)]
    simp only [create_card_data]
    rw [aget?_asetIf_ne _ _ "urlSource" "pos" _ (by decide),
        aget?_asetIf_self _ _ "pos" _ (by decide)]
  · intro h
    rw [hbody, aget?_cred_inject c _ _ (by decide) (by decide)]
    simp only [create_card_data, h, Bool.false_eq_true, if_false]
    rw [aget?_asetIf_ne _ _ "urlSource" "pos" _ (by decide),
        aget?_asetIf_ne _ _ "desc" "pos" _ (by decide),
        aget?_asetIf_ne _ _ "name" "pos" _ (by decide)]
    rfl
  · intro h
    rw [hbody, aget?_cred_inject c _ _ (by decide) (by decide)]
    simp only [create_card_data, h, Bool.false_eq_true, if_false]
    rw [aget?_asetIf_ne _ _ "urlSource" "name" _ (by decide),
        aget?_asetIf_ne _ _ "pos" "name" _ (by decide),
        aget?_asetIf_ne _ _ "desc" "name" _ (by decide)]
    simp [aget?_aset_self]
  · intro h
    rw [hbody, aget?_cred_inject c _ _ (by decide) (by decide)]
    simp only [create_card_data, h, Bool.false_eq_true, if_false]
    rw [aget?_asetIf_ne _ _ "urlSource" "name" _ (by decide),
        aget?_asetIf_ne _ _ "pos" "name" _ (by decide),
        aget?_asetIf_ne _ _ "desc" "name" _ (by decide)]
    rfl
  · intro h
    rw [hbody, aget?_cred_inject c _ _ (by decide) (by decide)]
    simp only [create_card_data, h, Bool.false_eq_true, if_false]
    rw [aget?_asetIf_ne _ _ "urlSource" "desc" _ (by decide),
        aget?_asetIf_ne _ _ "pos" "desc" _ (by decide)]
    simp [aget?_aset_self]
  · intro h
    rw [hbody, aget?_cred_inject c _ _ (by decide) (by decide)]
    simp only [create_card_data, h, Bool.false_eq_true, if_false]
    rw [aget?_asetIf_ne _ _ "urlSource" "desc" _ (by decide),
        aget?_asetIf_ne _ _ "pos" "desc" _ (by decide),
        aget?_asetIf_ne _ _ "name" "desc" _ (by decide)]
    rfl
  · intro h
    rw [hbody, aget?_cred_inject c _ _ (by decide) (by decide)]
    simp only [create_card_data, h, Bool.false_eq_true, if_false]
    simp [aget?_aset_self]
  · intro h
    rw [hbody, aget?_cred_inject c _ _ (by decide) (by decide)]
    simp only [create_card_data, h, Bool.false_eq_true, if_false]
    rw [aget?_asetIf_ne _ _ "pos" "urlSource" _ (by decide),
        aget?_asetIf_ne _ _ "desc" "urlSource" _ (by decide),
        aget?_asetIf_ne _ _ "name" "urlSource" _ (by decide)]
    rfl
  · rfl
  · rfl
  · simp [create_card, create_card_request, request]

/-- Witness for C10: a fully supplied call and a call with empty name
agree with the stated body shape. -/
theorem c10_create_card_body_witness :
    (pyTruthy (.pyStr "") = false ∧
      aget? (bodyOf (create_card_request ⟨"K", "T"⟩ "L1" (.pyStr "") (.pyStr "d")
        (.pyStr "bottom") .pyNone)) "name" = none) ∧
    (pyTruthy (.pyStr "N") = true ∧
      aget? (bodyOf (create_card_request ⟨"K", "T"⟩ "L1" (.pyStr "N") (.pyStr "d")
        (.pyStr "bottom") .pyNone)) "name" = some (.pyStr "N")) ∧
    aget? (bodyOf (create_card_request ⟨"K", "T"⟩ "L1" (.pyStr "N") (.pyStr "d")
      (.pyStr "bottom") .pyNone)) "idList" = some (.pyStr "L1") :=
  ⟨⟨by decide,
    (c10_create_card_body ⟨"K", "T"⟩ "L1" (.pyStr "") (.pyStr "d") (.pyStr "bottom")
      .pyNone).2.2.2.2.1 (by decide)⟩,
   ⟨by decide,
    (c10_create_card_body ⟨"K", "T"⟩ "L1" (.pyStr "N") (.pyStr "d") (.pyStr "bottom")
      .pyNone).2.2.2.1 (by decide)⟩,
   (c10_create_card_body ⟨"K", "T"⟩ "L1" (.pyStr "N") (.pyStr "d") (.pyStr "bottom")
     .pyNone).1⟩

/-- C8: with a cache backing store configured, after any successful
fetch of a URL the freshly returned bytes are stored under the UTF-8
encoding of the URL, and a second fetch of the same URL performs zero
network calls (whatever the network would now answer) and returns bytes
identical to the first; moreover a first fetch that misses stores the
fetched bytes under the UTF-8 key before returning them. -/
theorem c8_cache_round_trip (net : String → RawResponse) (store : Store) (url : String)
    (o : FetchOut) (h : cachedGet true net store url = .ok o) :
    aget? o.store (utf8Key url) = some o.content ∧
    (∀ net', cachedGet true net' o.store url = .ok ⟨o.content, o.store, 0⟩) ∧
    (aget? store (utf8Key url) = none → (net url).ok = true →
      o = ⟨(net url).content, aset store (utf8Key url) (net url).content, 1⟩) := by
  have hstored : aget? o.store (utf8Key url) = some o.content := by
    revert h
    simp only [cachedGet, if_true]
    cases hc : aget? store (utf8Key url) with
    | some v =>
      intro h
      cases h
      exact hc
    | none =>
      cases hok : (net url).ok with
      | true =>
        simp only [hok, if_true]
        intro h
        cases h
        exact aget?_aset_self _ _ _
      | false =>
        simp [hok]
  refine ⟨hstored, ?_, ?_⟩
  · intro net'
    simp [cachedGet, hstored]
  · intro hmiss hok
    revert h
    simp [cachedGet, hmiss, hok]
    intro h
    exact h.symm

/-- Witness for C8: a miss on an empty store fetches once, stores the
bytes under the UTF-8 key, and the second fetch returns them with zero
network calls. -/
theorem c8_cache_round_trip_witness :
    cachedGet true (fun _ => ⟨true, [1, 2, 3]⟩) [] "x"
      = .ok ⟨[1, 2, 3], [([120], [1, 2, 3])], 1⟩ ∧
    aget? ([([120], [1, 2, 3])] : Store) (utf8Key "x") = some [1, 2, 3] ∧
    (∀ net', cachedGet true net' [([120], [1, 2, 3])] "x"
      = .ok ⟨[1, 2, 3], [([120], [1, 2, 3])], 0⟩) :=
  ⟨rfl,
   (c8_cache_round_trip (fun _ => ⟨true, [1, 2, 3]⟩) [] "x"
     ⟨[1, 2, 3], [([120], [1, 2, 3])], 1⟩ rfl).1,
   (c8_cache_round_trip (fun _ => ⟨true, [1, 2, 3]⟩) [] "x"
     ⟨[1, 2, 3], [([120], [1, 2, 3])], 1⟩ rfl).2.1⟩

/-- C2: extraction either fails or returns a record with all seven
fields in place (no partial record); a document without the content
container fails outright before any other field is read, a required
node missing in steps 1-4 fails, and fewer than three summary header
nodes fails. -/
theorem c2_full_record_or_hard_failure (url : String) (html : Elem) :
    (∀ info, scrape_daft_page url html = .ok info →
      info.map Prod.fst
        = ["url", "title", "image", "price", "beds", "baths", "description"]) ∧
    (divContentQ html = [] → scrape_daft_page url html = .error .indexError) ∧
    (∀ ct cr, divContentQ html = ct :: cr → titleQ ct = [] →
      scrape_daft_page url html = .error .indexError) ∧
    (imageQ html = [] → ∃ e, scrape_daft_page url html = .error e) ∧
    (priceQ html = [] → ∃ e, scrape_daft_page url html = .error e) ∧
    ((headerQ html).length < 3 → ∃ e, scrape_daft_page url html = .error e) := by
  refine ⟨?_, ?_, ?_, ?_, ?_, ?_⟩
  · intro info h
    rcases hc : divContentQ html with _ | ⟨ct, cr⟩
    · simp [scrape_daft_page, hc] at h
    rcases ht : titleQ ct with _ | ⟨t, tr⟩
    · simp [scrape_daft_page, hc, ht] at h
    rcases hi : imageQ html with _ | ⟨im, ir⟩
    · simp [scrape_daft_page, hc, ht, hi] at h
    rcases hs : im.getAttr "src" with _ | src
    · simp [scrape_daft_page, hc, ht, hi, hs] at h
    rcases hp : priceQ html with _ | ⟨p, pr⟩
    · simp [scrape_daft_page, hc, ht, hi, hs, hp] at h
    rcases h1 : (headerQ html)[1]? with _ | e1
    · simp [scrape_daft_page, hc, ht, hi, hs, hp, h1] at h
    rcases h2 : (headerQ html)[2]? with _ | e2
    · simp [scrape_daft_page, hc, ht, hi, hs, hp, h1, h2] at h
    simp [scrape_daft_page, hc, ht, hi, hs, hp, h1, h2] at h
    subst h
    rfl
  · intro hc
    simp [scrape_daft_page, hc]
  · intro ct cr hc ht
    simp [scrape_daft_page, hc, ht]
  · intro hi
    rcases hc : divContentQ html with _ | ⟨ct, cr⟩
    · exact ⟨.indexError, by simp [scrape_daft_page, hc]⟩
    rcases ht : titleQ ct with _ | ⟨t, tr⟩
    · exact ⟨.indexError, by simp [scrape_daft_page, hc, ht]⟩
    exact ⟨.indexError, by simp [scrape_daft_page, hc, ht, hi]⟩
  · intro hp
    rcases hc : divContentQ html with _ | ⟨ct, cr⟩
    · exact ⟨.indexError, by simp [scrape_daft_page, hc]⟩
    rcases ht : titleQ ct with _ | ⟨t, tr⟩
    · exact ⟨.indexError, by simp [scrape_daft_page, hc, ht]⟩
    rcases hi : imageQ html with _ | ⟨im, ir⟩
    · exact ⟨.indexError, by simp [scrape_daft_page, hc, ht, hi]⟩
    rcases hs : im.getAttr "src" with _ | src
    · exact ⟨.keyError "src", by simp [scrape_daft_page, hc, ht, hi, hs]⟩
    exact ⟨.indexError, by simp [scrape_daft_page, hc, ht, hi, hs, hp]⟩
  · intro hl
    have h2 : (headerQ html)[2]? = none := by
      rw [List.getElem?_eq_none_iff]
      omega
    rcases hc : divContentQ html with _ | ⟨ct, cr⟩
    · exact ⟨.indexError, by simp [scrape_daft_page, hc]⟩
    rcases ht : titleQ ct with _ | ⟨t, tr⟩
    · exact ⟨.indexError, by simp [scrape_daft_page, hc, ht]⟩
    rcases hi : imageQ html with _ | ⟨im, ir⟩
    · exact ⟨.indexError, by simp [scrape_daft_page, hc, ht, hi]⟩
    rcases hs : im.getAttr "src" with _ | src
    · exact ⟨.keyError "src", by simp [scrape_daft_page, hc, ht, hi, hs]⟩
    rcases hp : priceQ html with _ | ⟨p, pr⟩
    · exact ⟨.indexError, by simp [scrape_daft_page, hc, ht, hi, hs, hp]⟩
    rcases h1 : (headerQ html)[1]? with _ | e1
    · exact ⟨.indexError, by simp [scrape_daft_page, hc, ht, hi, hs, hp, h1]⟩
    exact ⟨.indexError, by simp [scrape_daft_page, hc, ht, hi, hs, hp, h1, h2]⟩

/-- Witness for C2: a document with no content container fails with
IndexError, and a well-formed document yields the full seven-field
record. -/
theorem c2_full_record_or_hard_failure_witness :
    (divContentQ (.el "html" [] none none []) = [] ∧
      scrape_daft_page "u" (.el "html" [] none none []) = .error .indexError) ∧
    (scrape_daft_page "u" (mkListingDoc "T" "2" "1" "E1" "//i" ["A", "B"])
        = .ok [("url", some "u"), ("title", some "T"), ("image", some "https://i"),
               ("price", some "E1"), ("beds", some "2"), ("baths", some "1"),
               ("description", some "A\n\nB")] ∧
      List.map Prod.fst
          [(("url" : String), some ("u" : String)), ("title", some "T"),
           ("image", some "https://i"), ("price", some "E1"), ("beds", some "2"),
           ("baths", some "1"), ("description", some "A\n\nB")]
        = ["url", "title", "image", "price", "beds", "baths", "description"]) :=
  ⟨⟨rfl, (c2_full_record_or_hard_failure "u" (.el "html" [] none none [])).2.1 rfl⟩,
   ⟨rfl, (c2_full_record_or_hard_failure "u"
      (mkListingDoc "T" "2" "1" "E1" "//i" ["A", "B"])).1 _ rfl⟩⟩

/-- C3: on a document with a content container, one title node, one
price node, a gallery image and at least three summary header nodes,
extraction succeeds with `beds` the text of the second summary header,
`baths` the text of the third, and `description` the text contents of
the description blocks joined pairwise with one blank line; zero
description blocks give the empty string, not a failure. -/
theorem c3_positional_and_description_extraction (url : String) (html : Elem)
    (ct t im p e0 e1 e2 : Elem) (src : String) (hrest : List Elem)
    (hc : divContentQ html = [ct]) (ht : titleQ ct = [t])
    (hi : imageQ html = [im]) (hs : im.getAttr "src" = some src)
    (hp : priceQ html = [p])
    (hh : headerQ html = e0 :: e1 :: e2 :: hrest) :
    ∃ info, scrape_daft_page url html = .ok info ∧
      aget? info "beds" = some e1.text ∧
      aget? info "baths" = some e2.text ∧
      aget? info "description"
        = some (some (String.intercalate "\n\n" ((descQ html).map Elem.textContent))) ∧
      (descQ html = [] → aget? info "description" = some (some "")) := by
  have h1q : (headerQ html)[1]? = some e1 := by simp [hh]
  have h2q : (headerQ html)[2]? = some e2 := by simp [hh]
  have hscrape : scrape_daft_page url html
      = .ok (aset (aset (aset (aset (aset (aset [("url", some url)] "title" t.text)
          "image" (some (if pyStartsWith src "//" then "https:" ++ src else src)))
          "price" p.text) "beds" e1.text) "baths" e2.text)
          "description" (some (String.intercalate "\n\n"
            ((descQ html).map Elem.textContent)))) := by
    simp [scrape_daft_page, hc, ht, hi, hs, hp, h1q, h2q]
  refine ⟨_, hscrape, rfl, rfl, rfl, ?_⟩
  intro hd
  rw [hd]
  rfl

/-- Witness for C3: a concrete document with header texts "House", "2",
"1" and description blocks "A" and "B" yields beds "2", baths "1" and
description "A\n\nB". -/
theorem c3_positional_and_description_extraction_witness :
    headerQ (mkListingDoc "T" "2" "1" "E1" "i.jpg" ["A", "B"])
      = [.el "span" [("class", "header_text")] (some "House") none [],
         .el "span" [("class", "header_text")] (some "2") none [],
         .el "span" [("class", "header_text")] (some "1") none []] ∧
    (∃ info, scrape_daft_page "u" (mkListingDoc "T" "2" "1" "E1" "i.jpg" ["A", "B"])
        = .ok info ∧
      aget? info "beds" = some (some "2") ∧
      aget? info "baths" = some (some "1") ∧
      aget? info "description" = some (some "A\n\nB")) :=
  ⟨rfl,
   (c3_positional_and_description_extraction "u"
      (mkListingDoc "T" "2" "1" "E1" "i.jpg" ["A", "B"])
      (.el "div" [("id", "content")] none none [
        .el "div" [("class", "smi-info")] none none [
          .el "h1" [] (some "T") none []]])
      (.el "h1" [] (some "T") none [])
      (.el "img" [("src", "i.jpg")] none none [])
      (.el "span" [("id", "smi-price-string")] (some "E1") none [])
      (.el "span" [("class", "header_text")] (some "House") none [])
      (.el "span" [("class", "header_text")] (some "2") none [])
      (.el "span" [("class", "header_text")] (some "1") none [])
      "i.jpg" [] rfl rfl rfl rfl rfl rfl).elim
    (fun info h => ⟨info, h.1, h.2.1, h.2.2.1, h.2.2.2.1.trans (by rfl)⟩)⟩

/-- C7: the image field of a successful extraction is the gallery
image's `src` value prefixed with `https:` when it begins with `//`,
and unchanged otherwise. -/
theorem c7_image_scheme_normalization (url : String) (html : Elem)
    (ct t im p e0 e1 e2 : Elem) (src : String) (hrest : List Elem)
    (hc : divContentQ html = [ct]) (ht : titleQ ct = [t])
    (hi : imageQ html = [im]) (hs : im.getAttr "src" = some src)
    (hp : priceQ html = [p])
    (hh : headerQ html = e0 :: e1 :: e2 :: hrest) :
    ∃ info, scrape_daft_page url html = .ok info ∧
      aget? info "image"
        = some (some (if pyStartsWith src "//" then "https:" ++ src else src)) ∧
      (pyStartsWith src "//" = true →
        aget? info "image" = some (some ("https:" ++ src))) ∧
      (pyStartsWith src "//" = false →
        aget? info "image" = some (some src)) := by
  have h1q : (headerQ html)[1]? = some e1 := by simp [hh]
  have h2q : (headerQ html)[2]? = some e2 := by simp [hh]
  have hscrape : scrape_daft_page url html
      = .ok (aset (aset (aset (aset (aset (aset [("url", some url)] "title" t.text)
          "image" (some (if pyStartsWith src "//" then "https:" ++ src else src)))
          "price" p.text) "beds" e1.text) "baths" e2.text)
          "description" (some (String.intercalate "\n\n"
            ((descQ html).map Elem.textContent)))) := by
    simp [scrape_daft_page, hc, ht, hi, hs, hp, h1q, h2q]
  refine ⟨_, hscrape, rfl, ?_, ?_⟩ <;> intro hb <;> simp only [hb] <;> rfl

/-- Witness for C7: a protocol-relative source is prefixed with
`https:` while an absolute source passes through unchanged. -/
theorem c7_image_scheme_normalization_witness :
    (pyStartsWith "//img.example/1.jpg" "//" = true ∧
      ∃ info, scrape_daft_page "u"
          (mkListingDoc "T" "2" "1" "E1" "//img.example/1.jpg" []) = .ok info ∧
        aget? info "image" = some (some "https://img.example/1.jpg")) ∧
    (pyStartsWith "http://a/b.jpg" "//" = false ∧
      ∃ info, scrape_daft_page "u"
          (mkListingDoc "T" "2" "1" "E1" "http://a/b.jpg" []) = .ok info ∧
        aget? info "image" = some (some "http://a/b.jpg")) :=
  ⟨⟨by decide,
    (c7_image_scheme_normalization "u"
      (mkListingDoc "T" "2" "1" "E1" "//img.example/1.jpg" [])
      (.el "div" [("id", "content")] none none [
        .el "div" [("class", "smi-info")] none none [
          .el "h1" [] (some "T") none []]])
      (.el "h1" [] (some "T") none [])
      (.el "img" [("src", "//img.example/1.jpg")] none none [])
      (.el "span" [("id", "smi-price-string")] (some "E1") none [])
      (.el "span" [("class", "header_text")] (some "House") none [])
      (.el "span" [("class", "header_text")] (some "2") none [])
      (.el "span" [("class", "header_text")] (some "1") none [])
      "//img.example/1.jpg" [] rfl rfl rfl rfl rfl rfl).elim
    (fun info h => ⟨info, h.1, h.2.2.1 (by decide)⟩)⟩,
   ⟨by decide,
    (c7_image_scheme_normalization "u"
      (mkListingDoc "T" "2" "1" "E1" "http://a/b.jpg" [])
      (.el "div" [("id", "content")] none none [
        .el "div" [("class", "smi-info")] none none [
          .el "h1" [] (some "T") none []]])
      (.el "h1" [] (some "T") none [])
      (.el "img" [("src", "http://a/b.jpg")] none none [])
      (.el "span" [("id", "smi-price-string")] (some "E1") none [])
      (.el "span" [("class", "header_text")] (some "House") none [])
      (.el "span" [("class", "header_text")] (some "2") none [])
      (.el "span" [("class", "header_text")] (some "1") none [])
      "http://a/b.jpg" [] rfl rfl rfl rfl rfl rfl).elim
    (fun info h => ⟨info, h.1, h.2.2.2 (by decide)⟩)⟩⟩

theorem str_append_ne_empty_right (s t : String) (ht : t ≠ "") : s ++ t ≠ "" := by
  intro he
  apply ht
  have hd := congrArg String.data he
  rw [String.data_append] at hd
  rcases List.append_eq_nil.mp hd with ⟨h1, h2⟩
  exact String.ext h2

theorem str_append_ne_empty_left (s t : String) (hs : s ≠ "") : s ++ t ≠ "" := by
  intro he
  apply hs
  have hd := congrArg String.data he
  rw [String.data_append] at hd
  rcases List.append_eq_nil.mp hd with ⟨h1, h2⟩
  exact String.ext h1

/-- C9: a successful import issues, in order, the board fetch, the card
creation in the board's first list with name
`{title} - {beds} / {baths} - {price}` and the extracted description,
the image-URL attachment, the card update setting that attachment as
cover, and the source-URL attachment; the card body carries the list
id, the formatted name and the description. -/
theorem c9_orchestration_order (c : Creds) (board_id url : String) (html : Elem)
    (data : Info) (title beds baths price desc img theUrl : String)
    (listId cardId attId : String)
    (listRest cardRest attRest boardRest : List (String × JVal))
    (moreLists : List JVal) (updJ att2J : JVal)
    (hscrape : scrape_daft_page url html = .ok data)
    (htitle : aget? data "title" = some (some title))
    (hbeds : aget? data "beds" = some (some beds))
    (hbaths : aget? data "baths" = some (some baths))
    (hprice : aget? data "price" = some (some price))
    (hdesc : aget? data "description" = some (some desc))
    (himg : aget? data "image" = some (some img))
    (hurl : aget? data "url" = some (some theUrl))
    (hdesc_ne : desc ≠ "") (himg_ne : img ≠ "") (hurl_ne : theUrl ≠ "") :
    import_ad c board_id url html
      ⟨[okResp (.jobj (("lists",
          .jarr (.jobj (("id", .jstr listId) :: listRest) :: moreLists)) :: boardRest)),
        okResp (.jobj (("id", .jstr cardId) :: cardRest)),
        okResp (.jobj (("id", .jstr attId) :: attRest)),
        okResp updJ, okResp att2J], []⟩
      = (.ok (), ⟨[],
          [prepareRequest c "GET" ("/1/boards/" ++ board_id)
             ⟨some [("lists", .pyStr "all"), ("cards", .pyStr "all")], none⟩,
           create_card_request c listId
             (.pyStr (title ++ " - " ++ beds ++ " / " ++ baths ++ " - " ++ price))
             (.pyStr desc) (.pyStr "bottom") .pyNone,
           prepareRequest c "POST" ("/1/cards/" ++ cardId ++ "/attachments")
             ⟨none, some [("url", .pyStr img)]⟩,
           update_card_request c cardId none (.pyStr attId),
           prepareRequest c "POST" ("/1/cards/" ++ cardId ++ "/attachments")
             ⟨none, some [("url", .pyStr theUrl)]⟩]⟩) ∧
    aget? (bodyOf (create_card_request c listId
        (.pyStr (title ++ " - " ++ beds ++ " / " ++ baths ++ " - " ++ price))
        (.pyStr desc) (.pyStr "bottom") .pyNone)) "idList" = some (.pyStr listId) ∧
    aget? (bodyOf (create_card_request c listId
        (.pyStr (title ++ " - " ++ beds ++ " / " ++ baths ++ " - " ++ price))
        (.pyStr desc) (.pyStr "bottom") .pyNone)) "name"
      = some (.pyStr (title ++ " - " ++ beds ++ " / " ++ baths ++ " - " ++ price)) ∧
    aget? (bodyOf (create_card_request c listId
        (.pyStr (title ++ " - " ++ beds ++ " / " ++ baths ++ " - " ++ price))
        (.pyStr desc) (.pyStr "bottom") .pyNone)) "desc" = some (.pyStr desc) := by
  have hname_ne : (title ++ " - " ++ beds ++ " / " ++ baths ++ " - " ++ price) ≠ "" :=
    str_append_ne_empty_left _ _ (str_append_ne_empty_right _ _ (by decide))
  have hnb : ((title ++ " - " ++ beds ++ " / " ++ baths ++ " - " ++ price) == "") = false :=
    beq_eq_false_iff_ne.mpr hname_ne
  have hdb : (desc == "") = false := beq_eq_false_iff_ne.mpr hdesc_ne
  have hib : (img == "") = false := beq_eq_false_iff_ne.mpr himg_ne
  have hub : (theUrl == "") = false := beq_eq_false_iff_ne.mpr hurl_ne
  refine ⟨?_, ?_, ?_, ?_⟩
  · simp [import_ad, hscrape, get_board, get_board_params, card_title_of, htitle, hbeds,
      hbaths, hprice, pyFieldStr, fieldVal, hdesc, himg, hurl, pyOfField,
      create_card_default, create_card, create_card_request, attach_to_card,
      attach_to_card_data, update_card, update_card_request, request, okResp,
      Response.ok, firstListId, jsonId, JVal.getKey, JVal.getIdx, aget?, aset, pyTruthy,
      hnb, hdb, hib, hub]
  · rw [create_card_request, bodyOf_post, aget?_cred_inject c _ _ (by decide) (by decide)]
    simp only [create_card_data]
    rw [aget?_asetIf_ne _ _ "urlSource" "idList" _ (by decide),
        aget?_asetIf_ne _ _ "pos" "idList" _ (by decide),
        aget?_asetIf_ne _ _ "desc" "idList" _ (by decide),
        aget?_asetIf_ne _ _ "name" "idList" _ (by decide)]
    rfl
  · rw [create_card_request, bodyOf_post, aget?_cred_inject c _ _ (by decide) (by decide)]
    simp only [create_card_data, pyTruthy, hnb]
    rw [aget?_asetIf_ne _ _ "urlSource" "name" _ (by decide),
        aget?_asetIf_ne _ _ "pos" "name" _ (by decide),
        aget?_asetIf_ne _ _ "desc" "name" _ (by decide)]
    simp [aget?_aset_self]
  · rw [create_card_request, bodyOf_post, aget?_cred_inject c _ _ (by decide) (by decide)]
    simp only [create_card_data, pyTruthy, hdb]
    rw [aget?_asetIf_ne _ _ "urlSource" "desc" _ (by decide),
        aget?_asetIf_ne _ _ "pos" "desc" _ (by decide)]
    simp [aget?_aset_self]

/-- Witness for C9: importing a listing titled "Nice Flat" with beds
"2", baths "1", price "€1,500" and image "//img.example/1.jpg" creates
a card named "Nice Flat - 2 / 1 - €1,500" in list L1, attaches
"https://img.example/1.jpg", sets it as cover, and attaches the source
URL, in that order. -/
theorem c9_orchestration_order_witness :
    scrape_daft_page "https://daft.example/ad1"
        (mkListingDoc "Nice Flat" "2" "1" "€1,500" "//img.example/1.jpg" ["Desc"])
      = .ok [("url", some "https://daft.example/ad1"), ("title", some "Nice Flat"),
             ("image", some "https://img.example/1.jpg"), ("price", some "€1,500"),
             ("beds", some "2"), ("baths", some "1"), ("description", some "Desc")] ∧
    import_ad ⟨"K", "T"⟩ "B" "https://daft.example/ad1"
        (mkListingDoc "Nice Flat" "2" "1" "€1,500" "//img.example/1.jpg" ["Desc"])
        ⟨[okResp (.jobj [("lists", .jarr [.jobj [("id", .jstr "L1")]])]),
          okResp (.jobj [("id", .jstr "C1")]),
          okResp (.jobj [("id", .jstr "A1")]),
          okResp .null, okResp .null], []⟩
      = (.ok (), ⟨[],
          [prepareRequest ⟨"K", "T"⟩ "GET" "/1/boards/B"
             ⟨some [("lists", .pyStr "all"), ("cards", .pyStr "all")], none⟩,
           create_card_request ⟨"K", "T"⟩ "L1" (.pyStr "Nice Flat - 2 / 1 - €1,500")
             (.pyStr "Desc") (.pyStr "bottom") .pyNone,
           prepareRequest ⟨"K", "T"⟩ "POST" "/1/cards/C1/attachments"
             ⟨none, some [("url", .pyStr "https://img.example/1.jpg")]⟩,
           update_card_request ⟨"K", "T"⟩ "C1" none (.pyStr "A1"),
           prepareRequest ⟨"K", "T"⟩ "POST" "/1/cards/C1/attachments"
             ⟨none, some [("url", .pyStr "https://daft.example/ad1")]⟩]⟩) :=
  ⟨rfl,
   (c9_orchestration_order ⟨"K", "T"⟩ "B" "https://daft.example/ad1"
     (mkListingDoc "Nice Flat" "2" "1" "€1,500" "//img.example/1.jpg" ["Desc"])
     [("url", some "https://daft.example/ad1"), ("title", some "Nice Flat"),
      ("image", some "https://img.example/1.jpg"), ("price", some "€1,500"),
      ("beds", some "2"), ("baths", some "1"), ("description", some "Desc")]
     "Nice Flat" "2" "1" "€1,500" "Desc" "https://img.example/1.jpg"
     "https://daft.example/ad1" "L1" "C1" "A1" [] [] [] [] [] .null .null
     rfl rfl rfl rfl rfl rfl rfl rfl (by decide) (by decide) (by decide)).1⟩

end DaftToTrello
